import Mathlib

/-!
Verification of the operator-dispatch resolution layer in
`pandas/core/ops/dispatch.py`.

The module consists of four functions:
* `should_extension_dispatch` — decides whether a Series operation must be
  routed through the operand's extension-aware operator implementation;
* `should_series_dispatch` — decides whether a DataFrame operation should be
  decomposed into per-column Series operations;
* `dispatch_to_extension_op` — normalizes a temporal ndarray operand, invokes
  the operator, and translates `NullFrequencyError` into `TypeError`;
* `maybe_dispatch_ufunc_to_dunder_op` — bridges a numpy ufunc invocation onto
  the equivalent dunder method of the owning array.

The embedding below models the dtype-classification predicates imported from
`pandas.core.dtypes.common` (which live outside this module) as attributes of
an abstract dtype value, and models Python exceptions with an explicit
`Except` result type.
-/

namespace PandasOpsDispatch

/-- An abstract pandas/numpy dtype.  `kind` is the numpy storage-kind
character (numpy uses kind 'M' for datetime64 and kind 'm' for timedelta64);
the remaining fields model the classification predicates
`is_extension_array_dtype`, `is_datetime64_dtype`, `is_timedelta64_dtype`,
`is_integer_dtype` and `is_object_dtype` from `pandas.core.dtypes.common`,
which are external to the dispatch module, as attributes of the dtype. -/
structure Dtype where
  kind : Char
  isExtension : Bool
  isDatetime64 : Bool
  isTimedelta64 : Bool
  isInteger : Bool
  isObject : Bool
  deriving DecidableEq, Inhabited

/-- A labeled 1-D array (Series).  `should_extension_dispatch` inspects only
its dtype. -/
structure LabeledArray where
  dtype : Dtype
  deriving DecidableEq

/-- An arbitrary right operand of `should_extension_dispatch`: the function
asks `is_scalar(right)` and `is_extension_array_dtype(right)` of it, so the
model carries a scalar flag and the operand's declared dtype. -/
structure Operand where
  isScalar : Bool
  dtype : Dtype
  deriving DecidableEq

/-- A labeled 2-D table (DataFrame) as inspected by `should_series_dispatch`:
its `_is_mixed_type` flag and its per-column dtype sequence.  The column
count `len(left.columns)` always equals the length of the dtype sequence, so
the model identifies the two. -/
structure LabeledTable where
  isMixedType : Bool
  dtypes : List Dtype
  deriving DecidableEq

/-- Storage representation of an array-like value passed to
`dispatch_to_extension_op`: `isinstance(left, np.ndarray)` holds exactly for
the `ndarray` representation; `DatetimeArray`/`TimedeltaArray` are the
specialized temporal representations produced by `pandas.core.construction.array`;
other extension arrays are grouped as `extensionArray`. -/
inductive Storage
  | ndarray
  | datetimeArray
  | timedeltaArray
  | extensionArray
  deriving DecidableEq

/-- An unboxed array-like value (ExtensionArray or np.ndarray). -/
structure ArrayVal where
  storage : Storage
  dtype : Dtype
  deriving DecidableEq

/-- An opaque Python value as produced or consumed by the dispatch layer.
`notImplemented` is the NotImplemented sentinel; `arr` embeds an array-like
value; `obj` is any other opaque value. -/
inductive PyVal
  | notImplemented
  | arr (a : ArrayVal)
  | obj (n : Nat)
  deriving DecidableEq

/-- The Python exceptions relevant to this module: `NullFrequencyError`
(from `pandas.errors`), `TypeError`, `IndexError`, and a representative for
every other exception class. -/
inductive PyExn
  | nullFrequencyError (msg : String)
  | typeError (msg : String)
  | indexError (msg : String)
  | valueError (msg : String)
  deriving DecidableEq

/-- A binary operator handed to `dispatch_to_extension_op` /
`should_series_dispatch`: it has a `__name__` and a callable body which
either returns a value or raises an exception. -/
structure ExOp where
  name : String
  call : ArrayVal → PyVal → Except PyExn PyVal

/--
`should_extension_dispatch(left, right)` from `pandas/core/ops/dispatch.py`:

```
if (is_extension_array_dtype(left.dtype)
    or is_datetime64_dtype(left.dtype)
    or is_timedelta64_dtype(left.dtype)):
    return True
if not is_scalar(right) and is_extension_array_dtype(right):
    return True
return False
```
-/
def should_extension_dispatch (left : LabeledArray) (right : Operand) : Bool :=
  if left.dtype.isExtension || left.dtype.isDatetime64 || left.dtype.isTimedelta64 then
    true
  else if !right.isScalar && right.dtype.isExtension then
    true
  else
    false

/--
`should_series_dispatch(left, right, op)` from `pandas/core/ops/dispatch.py`:

```
if left._is_mixed_type or right._is_mixed_type:
    return True
if not len(left.columns) or not len(right.columns):
    return False
ldtype = left.dtypes.iloc[0]
rdtype = right.dtypes.iloc[0]
if ((is_timedelta64_dtype(ldtype) and is_integer_dtype(rdtype))
        or (is_timedelta64_dtype(rdtype) and is_integer_dtype(ldtype))):
    return True
if is_datetime64_dtype(ldtype) and is_object_dtype(rdtype):
    return True
return False
```
The operator argument is accepted and ignored, as in the source. -/
def should_series_dispatch (left right : LabeledTable) (op : ExOp) : Bool :=
  if left.isMixedType || right.isMixedType then
    true
  else if left.dtypes.length == 0 || right.dtypes.length == 0 then
    false
  else
    let ldtype := left.dtypes.headI
    let rdtype := right.dtypes.headI
    if (ldtype.isTimedelta64 && rdtype.isInteger) ||
       (rdtype.isTimedelta64 && ldtype.isInteger) then
      true
    else if ldtype.isDatetime64 && rdtype.isObject then
      true
    else
      false

/-- Modelled from the spec: `pandas.core.construction.array` is imported from
outside this module; per the spec it "converts [a native temporal array] into
the specialized temporal array representation".  Only the temporal cases are
ever reached from `dispatch_to_extension_op`. -/
def construction_array (a : ArrayVal) : ArrayVal :=
  if a.dtype.kind == 'M' then { a with storage := Storage.datetimeArray }
  else if a.dtype.kind == 'm' then { a with storage := Storage.timedeltaArray }
  else a

/-- The normalization step of `dispatch_to_extension_op`:

```
if left.dtype.kind in "mM" and isinstance(left, np.ndarray):
    left = array(left)
```
-/
def normalize_left (left : ArrayVal) : ArrayVal :=
  if (left.dtype.kind == 'm' || left.dtype.kind == 'M') &&
     left.storage == Storage.ndarray then
    construction_array left
  else
    left

/--
`dispatch_to_extension_op(op, left, right, keep_null_freq)` from
`pandas/core/ops/dispatch.py`: normalize `left`, call `op(left, right)`, and
on `NullFrequencyError` either re-raise (when `keep_null_freq`) or raise
`TypeError("incompatible type for a datetime/timedelta operation [{name}]")`;
every other exception propagates unchanged. -/
def dispatch_to_extension_op (op : ExOp) (left : ArrayVal) (right : PyVal)
    (keep_null_freq : Bool) : Except PyExn PyVal :=
  let left2 := normalize_left left
  match op.call left2 right with
  | Except.ok v => Except.ok v
  | Except.error e =>
    match e with
    | PyExn.nullFrequencyError m =>
      if keep_null_freq then
        Except.error (PyExn.nullFrequencyError m)
      else
        Except.error (PyExn.typeError
          ("incompatible type for a datetime/timedelta operation [" ++ op.name ++ "]"))
    | e2 => Except.error e2

/-- The `special` set of `maybe_dispatch_ufunc_to_dunder_op`: the ufunc names
dispatched to the dunder op. -/
def special : List String :=
  ["add", "sub", "mul", "pow", "mod", "floordiv", "truediv", "divmod",
   "eq", "ne", "lt", "gt", "le", "ge", "remainder", "matmul"]

/-- The `aliases` table of `maybe_dispatch_ufunc_to_dunder_op`. -/
def aliases : List (String × String) :=
  [("subtract", "sub"), ("multiply", "mul"), ("floor_divide", "floordiv"),
   ("true_divide", "truediv"), ("power", "pow"), ("remainder", "mod"),
   ("divide", "div"), ("equal", "eq"), ("not_equal", "ne"), ("less", "lt"),
   ("less_equal", "le"), ("greater", "gt"), ("greater_equal", "ge")]

/-- The `flipped` table of `maybe_dispatch_ufunc_to_dunder_op`: for
`op(., Array) -> Array.__r\x7bop\x7d__`, with the comparisons swapped. -/
def flipped : List (String × String) :=
  [("lt", "__gt__"), ("le", "__ge__"), ("gt", "__lt__"), ("ge", "__le__"),
   ("eq", "__eq__"), ("ne", "__ne__")]

/-- `aliases.get(op_name, op_name)`. -/
def aliases_get (n : String) : String := (aliases.lookup n).getD n

/-- `flipped.get(op_name, "__r\x7b\x7d__".format(op_name))`. -/
def flipped_get (n : String) : String := (flipped.lookup n).getD ("__r" ++ n ++ "__")

/-- An input element of `maybe_dispatch_ufunc_to_dunder_op`: an object with a
concrete type identity and an opaque payload. -/
structure PyObj where
  typeTag : Nat
  payload : Nat
  deriving DecidableEq

/-- The `self` argument of `maybe_dispatch_ufunc_to_dunder_op`: its concrete
type identity and its attribute table of dunder methods (`getattr` returns
`none` when the attribute is absent). -/
structure SelfObj where
  typeTag : Nat
  methods : String → Option (PyObj → PyVal)

/-- A numpy ufunc as seen by the bridge: only its `__name__` is consulted. -/
structure Ufunc where
  name : String

/-- `getattr(self, name, not_implemented)(arg)`: call the dunder method when
present, otherwise return the NotImplemented sentinel (the local
`not_implemented(*args, **kwargs)` helper). -/
def call_method (self : SelfObj) (nm : String) (arg : PyObj) : PyVal :=
  match self.methods nm with
  | some f => f arg
  | none => PyVal.notImplemented

/--
`maybe_dispatch_ufunc_to_dunder_op(self, ufunc, method, *inputs, **kwargs)`
from `pandas/core/ops/dispatch.py`:

```
op_name = ufunc.__name__
op_name = aliases.get(op_name, op_name)
if method == "__call__" and op_name in special and kwargs.get("out") is None:
    if isinstance(inputs[0], type(self)):
        name = "__{}__".format(op_name)
        return getattr(self, name, not_implemented)(inputs[1])
    else:
        name = flipped.get(op_name, "__r{}__".format(op_name))
        return getattr(self, name, not_implemented)(inputs[0])
else:
    return NotImplemented
```

`kwargs_out` models `kwargs.get("out")` (Python `None` maps to `none`).
Indexing a tuple out of range raises `IndexError`, so the result is wrapped
in `Except`; `isinstance(inputs[0], type(self))` is modelled as equality of
the concrete type tags. -/
def maybe_dispatch_ufunc_to_dunder_op (self : SelfObj) (ufunc : Ufunc)
    (method : String) (inputs : List PyObj) (kwargs_out : Option PyVal) :
    Except PyExn PyVal :=
  let op_name := aliases_get ufunc.name
  if method == "__call__" && special.contains op_name && kwargs_out.isNone then
    match inputs[0]? with
    | none => Except.error (PyExn.indexError "tuple index out of range")
    | some i0 =>
      if i0.typeTag == self.typeTag then
        match inputs[1]? with
        | none => Except.error (PyExn.indexError "tuple index out of range")
        | some i1 => Except.ok (call_method self ("__" ++ op_name ++ "__") i1)
      else
        Except.ok (call_method self (flipped_get op_name) i0)
  else
    Except.ok PyVal.notImplemented

/-- The reflected-method name exactly as the spec words it: for the six
comparison operators use the fixed swap table
(lt↔gt, le↔ge, eq↔eq, ne↔ne); for all other operators synthesize
`"__r" ++ name ++ "__"`. -/
def spec_reflected_name (n : String) : String :=
  if n = "lt" then "__gt__"
  else if n = "le" then "__ge__"
  else if n = "gt" then "__lt__"
  else if n = "ge" then "__le__"
  else if n = "eq" then "__eq__"
  else if n = "ne" then "__ne__"
  else "__r" ++ n ++ "__"

/-- C2: for every labeled array whose dtype is an extension kind, or
datetime64, or timedelta64, and every right operand whatsoever,
`should_extension_dispatch(left, right)` returns true. -/
theorem claim_C2_extension_or_temporal_left_dispatches (left : LabeledArray)
    (h : left.dtype.isExtension = true ∨ left.dtype.isDatetime64 = true ∨
         left.dtype.isTimedelta64 = true) :
    ∀ right : Operand, should_extension_dispatch left right = true := by
  intro right
  unfold should_extension_dispatch
  rcases h with h | h | h <;> simp [h]

/-- Witness for C2 at a concrete extension-dtype array and a concrete scalar
operand. -/
theorem claim_C2_witness :
    should_extension_dispatch
      ⟨⟨'O', true, false, false, false, false⟩⟩
      ⟨true, ⟨'i', false, false, false, true, false⟩⟩ = true :=
  claim_C2_extension_or_temporal_left_dispatches _ (Or.inl rfl) _

/-- C3: for every left array of native (non-extension, non-temporal) dtype,
`should_extension_dispatch` returns false for every scalar right (even one
whose declared dtype is extension-like) and true for every non-scalar right
whose dtype is an extension kind. -/
theorem claim_C3_scalar_right_excluded (left : LabeledArray)
    (h : left.dtype.isExtension = false ∧ left.dtype.isDatetime64 = false ∧
         left.dtype.isTimedelta64 = false) :
    (∀ right : Operand, right.isScalar = true →
        should_extension_dispatch left right = false) ∧
    (∀ right : Operand, right.isScalar = false → right.dtype.isExtension = true →
        should_extension_dispatch left right = true) := by
  obtain ⟨h1, h2, h3⟩ := h
  constructor
  · intro right hs
    simp [should_extension_dispatch, h1, h2, h3, hs]
  · intro right hs he
    simp [should_extension_dispatch, h1, h2, h3, hs, he]

/-- Witness for C3: a native integer array against a categorical-tagged
scalar (false) and against a categorical array operand (true). -/
theorem claim_C3_witness :
    should_extension_dispatch
      ⟨⟨'i', false, false, false, true, false⟩⟩
      ⟨true, ⟨'O', true, false, false, false, false⟩⟩ = false ∧
    should_extension_dispatch
      ⟨⟨'i', false, false, false, true, false⟩⟩
      ⟨false, ⟨'O', true, false, false, false, false⟩⟩ = true :=
  ⟨(claim_C3_scalar_right_excluded _ ⟨rfl, rfl, rfl⟩).1 _ rfl,
   (claim_C3_scalar_right_excluded _ ⟨rfl, rfl, rfl⟩).2 _ rfl rfl⟩

/-- Counterexample to C1 as stated: a zero-column table that reports
`_is_mixed_type = True` makes `should_series_dispatch` return true, so the
zero-columns rule does not hold "regardless of every other attribute
(including whether either table reports mixed column dtypes)" — the
mixed-type check runs first. -/
theorem claim_C1_counterexample :
    ¬ ∀ (left right : LabeledTable) (op : ExOp),
        (left.dtypes.length = 0 ∨ right.dtypes.length = 0) →
        should_series_dispatch left right op = false := by
  intro h
  have h2 := h ⟨true, []⟩ ⟨false, []⟩
    ⟨"add", fun _ _ => Except.ok PyVal.notImplemented⟩ (Or.inl rfl)
  simp [should_series_dispatch] at h2

/-- C1 amended: for tables of which neither reports mixed column dtypes, if
either table has zero columns then `should_series_dispatch` returns false
regardless of every other attribute. -/
theorem claim_C1_zero_columns_no_dispatch (left right : LabeledTable) (op : ExOp)
    (hm : left.isMixedType = false ∧ right.isMixedType = false)
    (hz : left.dtypes.length = 0 ∨ right.dtypes.length = 0) :
    should_series_dispatch left right op = false := by
  obtain ⟨h1, h2⟩ := hm
  rcases hz with hz | hz <;> simp [should_series_dispatch, h1, h2, hz]

/-- Witness for the amended C1 at a concrete empty non-mixed table pair. -/
theorem claim_C1_witness :
    should_series_dispatch ⟨false, []⟩
      ⟨false, [⟨'i', false, false, false, true, false⟩]⟩
      ⟨"add", fun _ _ => Except.ok PyVal.notImplemented⟩ = false :=
  claim_C1_zero_columns_no_dispatch _ _ _ ⟨rfl, rfl⟩ (Or.inl rfl)

/-- C7: if either table has mixed column dtypes then
`should_series_dispatch` returns true, whatever the first-column dtype
checks would say. -/
theorem claim_C7_mixed_type_dispatches (left right : LabeledTable) (op : ExOp)
    (h : left.isMixedType = true ∨ right.isMixedType = true) :
    should_series_dispatch left right op = true := by
  rcases h with h | h <;> simp [should_series_dispatch, h]

/-- Witness for C7: a mixed-type table whose first-column dtypes would make
every subsequent check (timedelta-vs-integer, datetime-vs-object) false. -/
theorem claim_C7_witness :
    should_series_dispatch
      ⟨true, [⟨'f', false, false, false, false, false⟩]⟩
      ⟨false, [⟨'f', false, false, false, false, false⟩]⟩
      ⟨"add", fun _ _ => Except.ok PyVal.notImplemented⟩ = true :=
  claim_C7_mixed_type_dispatches _ _ _ (Or.inl rfl)

/-- C5: if invoking the operator (on the normalized left operand) raises
`NullFrequencyError`, then `dispatch_to_extension_op` re-raises it unchanged
when `keep_null_freq` is true, and raises
`TypeError("incompatible type for a datetime/timedelta operation [{name}]")`
naming the operator when `keep_null_freq` is false; every exception of any
other kind propagates unchanged for either flag value. -/
theorem claim_C5_null_frequency_translation (op : ExOp) (left : ArrayVal)
    (right : PyVal) :
    (∀ msg : String,
      op.call (normalize_left left) right =
          Except.error (PyExn.nullFrequencyError msg) →
        dispatch_to_extension_op op left right true =
          Except.error (PyExn.nullFrequencyError msg) ∧
        dispatch_to_extension_op op left right false =
          Except.error (PyExn.typeError
            ("incompatible type for a datetime/timedelta operation ["
              ++ op.name ++ "]"))) ∧
    (∀ e : PyExn, (∀ m : String, e ≠ PyExn.nullFrequencyError m) →
      op.call (normalize_left left) right = Except.error e →
        ∀ k : Bool, dispatch_to_extension_op op left right k = Except.error e) := by
  constructor
  · intro msg h
    constructor <;> simp [dispatch_to_extension_op, h]
  · intro e he h k
    cases e with
    | nullFrequencyError m => exact absurd rfl (he m)
    | typeError m => simp [dispatch_to_extension_op, h]
    | indexError m => simp [dispatch_to_extension_op, h]
    | valueError m => simp [dispatch_to_extension_op, h]

/-- Witness for C5: a concrete add operator on a timedelta ndarray with no
frequency raises `NullFrequencyError`, which is translated to the
operator-naming `TypeError` by default and re-raised unchanged when
`keep_null_freq` is set. -/
theorem claim_C5_witness :
    dispatch_to_extension_op
      ⟨"add", fun _ _ => Except.error (PyExn.nullFrequencyError "Cannot shift with no freq")⟩
      ⟨Storage.ndarray, ⟨'m', false, false, true, false, false⟩⟩
      (PyVal.obj 5) false =
      Except.error (PyExn.typeError
        "incompatible type for a datetime/timedelta operation [add]") ∧
    dispatch_to_extension_op
      ⟨"add", fun _ _ => Except.error (PyExn.nullFrequencyError "Cannot shift with no freq")⟩
      ⟨Storage.ndarray, ⟨'m', false, false, true, false, false⟩⟩
      (PyVal.obj 5) true =
      Except.error (PyExn.nullFrequencyError "Cannot shift with no freq") :=
  ⟨((claim_C5_null_frequency_translation _ _ _).1 _ rfl).2,
   ((claim_C5_null_frequency_translation _ _ _).1 _ rfl).1⟩

/-- An operator that returns its (possibly normalized) left operand, used to
observe exactly which value `dispatch_to_extension_op` hands to the
operator. -/
def recordingOp : ExOp := ⟨"record", fun l _ => Except.ok (PyVal.arr l)⟩

/-- `dispatch_to_extension_op` invokes the operator on `normalize_left left`,
observed through `recordingOp`. -/
theorem dispatch_records_normalized (left : ArrayVal) (right : PyVal)
    (keep : Bool) :
    dispatch_to_extension_op recordingOp left right keep =
      Except.ok (PyVal.arr (normalize_left left)) := rfl

/-- C8: the left operand is converted with `construction_array` before the
operator is invoked exactly when it is an ndarray of storage kind 'm'
(timedelta64) or 'M' (datetime64); every other left operand, extension
arrays included, is passed to the operator unmodified.  Observed through an
operator that returns the value it receives. -/
theorem claim_C8_temporal_ndarray_normalized (left : ArrayVal) (right : PyVal)
    (keep : Bool) :
    ((left.storage = Storage.ndarray ∧
        (left.dtype.kind = 'm' ∨ left.dtype.kind = 'M')) →
      dispatch_to_extension_op recordingOp left right keep =
        Except.ok (PyVal.arr (construction_array left))) ∧
    (¬ (left.storage = Storage.ndarray ∧
        (left.dtype.kind = 'm' ∨ left.dtype.kind = 'M')) →
      dispatch_to_extension_op recordingOp left right keep =
        Except.ok (PyVal.arr left)) := by
  rw [dispatch_records_normalized]
  constructor
  · rintro ⟨hs, hk⟩
    rcases hk with hk | hk <;> simp [normalize_left, hs, hk]
  · intro h
    rw [not_and_or] at h
    unfold normalize_left
    rcases h with h | h
    · simp [h]
    · rw [not_or] at h
      simp [h.1, h.2]

/-- Witness for C8: a timedelta64 ndarray is handed to the operator as the
specialized `TimedeltaArray`, while a nullable-integer extension array is
handed over untouched. -/
theorem claim_C8_witness :
    dispatch_to_extension_op recordingOp
      ⟨Storage.ndarray, ⟨'m', false, false, true, false, false⟩⟩
      (PyVal.obj 0) false =
      Except.ok (PyVal.arr
        ⟨Storage.timedeltaArray, ⟨'m', false, false, true, false, false⟩⟩) ∧
    dispatch_to_extension_op recordingOp
      ⟨Storage.extensionArray, ⟨'i', true, false, false, true, false⟩⟩
      (PyVal.obj 0) false =
      Except.ok (PyVal.arr
        ⟨Storage.extensionArray, ⟨'i', true, false, false, true, false⟩⟩) :=
  ⟨by
    have h := (claim_C8_temporal_ndarray_normalized
      ⟨Storage.ndarray, ⟨'m', false, false, true, false, false⟩⟩
      (PyVal.obj 0) false).1 ⟨rfl, Or.inl rfl⟩
    rw [h]; rfl,
   (claim_C8_temporal_ndarray_normalized
      ⟨Storage.extensionArray, ⟨'i', true, false, false, true, false⟩⟩
      (PyVal.obj 0) false).2 (by simp)⟩

/-- The reflected-method lookup implemented with the `flipped` table plus the
`"__r\x7b\x7d__"` fallback agrees, on every operator name, with the
spec-worded swap table for the six comparisons and mechanical `"__r"`
prefixing for the rest. -/
theorem flipped_get_eq_spec_reflected_name (n : String) :
    flipped_get n = spec_reflected_name n := by
  by_cases h1 : n = "lt"
  · subst h1; rfl
  by_cases h2 : n = "le"
  · subst h2; rfl
  by_cases h3 : n = "gt"
  · subst h3; rfl
  by_cases h4 : n = "ge"
  · subst h4; rfl
  by_cases h5 : n = "eq"
  · subst h5; rfl
  by_cases h6 : n = "ne"
  · subst h6; rfl
  have e1 : (n == "lt") = false := beq_eq_false_iff_ne.mpr h1
  have e2 : (n == "le") = false := beq_eq_false_iff_ne.mpr h2
  have e3 : (n == "gt") = false := beq_eq_false_iff_ne.mpr h3
  have e4 : (n == "ge") = false := beq_eq_false_iff_ne.mpr h4
  have e5 : (n == "eq") = false := beq_eq_false_iff_ne.mpr h5
  have e6 : (n == "ne") = false := beq_eq_false_iff_ne.mpr h6
  simp [flipped_get, flipped, spec_reflected_name, List.lookup,
    h1, h2, h3, h4, h5, h6, e1, e2, e3, e4, e5, e6]

/-- C4: in an eligible invocation (plain `__call__` mode, resolved name in
the supported set, no `out`), if the first input has self's concrete type
the result is self's forward dunder `"__" ++ name ++ "__"` applied to the
second input; otherwise it is self's reflected method — the spec's swap
table for the six comparisons, `"__r" ++ name ++ "__"` for the rest —
applied to the first input; and a method absent from self yields the
NotImplemented sentinel rather than an exception. -/
theorem claim_C4_operand_order_resolution (self : SelfObj) (uf : Ufunc)
    (i0 i1 : PyObj) (rest : List PyObj)
    (hname : special.contains (aliases_get uf.name) = true) :
    (i0.typeTag = self.typeTag →
      maybe_dispatch_ufunc_to_dunder_op self uf "__call__" (i0 :: i1 :: rest) none =
        Except.ok (call_method self ("__" ++ aliases_get uf.name ++ "__") i1)) ∧
    (i0.typeTag ≠ self.typeTag →
      maybe_dispatch_ufunc_to_dunder_op self uf "__call__" (i0 :: i1 :: rest) none =
        Except.ok (call_method self (spec_reflected_name (aliases_get uf.name)) i0)) ∧
    (∀ (nm : String) (arg : PyObj), self.methods nm = none →
      call_method self nm arg = PyVal.notImplemented) := by
  have hmem : aliases_get uf.name ∈ special := by simpa using hname
  refine ⟨?_, ?_, ?_⟩
  · intro h
    simp [maybe_dispatch_ufunc_to_dunder_op, hmem, h]
  · intro h
    simp [maybe_dispatch_ufunc_to_dunder_op, hmem, h,
      flipped_get_eq_spec_reflected_name]
  · intro nm arg h
    simp [call_method, h]

/-- A concrete self object for exercising the ufunc bridge: concrete type
tag 1, implementing only `__gt__` (returning its argument's payload). -/
def exSelf : SelfObj :=
  ⟨1, fun nm => if nm = "__gt__" then some (fun arg => PyVal.obj arg.payload) else none⟩

/-- Witness for C4, the spec's end-to-end example: ufunc `"less"` with
`self` appearing as the second input dispatches to the reflected
`self.__gt__(inputs[0])`. -/
theorem claim_C4_witness :
    maybe_dispatch_ufunc_to_dunder_op exSelf ⟨"less"⟩ "__call__"
      [⟨0, 42⟩, ⟨1, 7⟩] none = Except.ok (PyVal.obj 42) := by
  have h := (claim_C4_operand_order_resolution exSelf ⟨"less"⟩ ⟨0, 42⟩ ⟨1, 7⟩ []
    (by decide)).2.1 (by decide)
  rw [h]; rfl

/-- C6: with a non-null `out` destination, or in any invocation mode other
than plain `__call__` (reduce, accumulate, outer, at, ...), the result is
the NotImplemented sentinel, whatever the operator. -/
theorem claim_C6_gate_failure_not_handled (self : SelfObj) (uf : Ufunc)
    (method : String) (inputs : List PyObj) (kwargs_out : Option PyVal)
    (h : method ≠ "__call__" ∨ kwargs_out ≠ none) :
    maybe_dispatch_ufunc_to_dunder_op self uf method inputs kwargs_out =
      Except.ok PyVal.notImplemented := by
  rcases h with h | h
  · simp [maybe_dispatch_ufunc_to_dunder_op, h]
  · cases kwargs_out with
    | none => exact absurd rfl h
    | some v => simp [maybe_dispatch_ufunc_to_dunder_op]

/-- Witness for C6: a reduce-mode request for the supported `"add"` ufunc,
and a plain call with an `out` buffer, are both not handled. -/
theorem claim_C6_witness :
    maybe_dispatch_ufunc_to_dunder_op exSelf ⟨"add"⟩ "reduce" [⟨1, 0⟩, ⟨1, 1⟩] none =
      Except.ok PyVal.notImplemented ∧
    maybe_dispatch_ufunc_to_dunder_op exSelf ⟨"add"⟩ "__call__" [⟨1, 0⟩, ⟨1, 1⟩]
      (some (PyVal.obj 0)) = Except.ok PyVal.notImplemented :=
  ⟨claim_C6_gate_failure_not_handled _ _ _ _ _ (Or.inl (by decide)),
   claim_C6_gate_failure_not_handled _ _ _ _ _ (Or.inr (by simp))⟩

/-- C9: a ufunc named `"divide"` is never handled: the alias table resolves
it to `"div"`, which is not in the supported set, so the gate fails in every
mode, with or without `out`. -/
theorem claim_C9_divide_never_handled (self : SelfObj) (method : String)
    (inputs : List PyObj) (kwargs_out : Option PyVal) :
    maybe_dispatch_ufunc_to_dunder_op self ⟨"divide"⟩ method inputs kwargs_out =
      Except.ok PyVal.notImplemented := by
  have h : aliases_get "divide" ∉ special := by decide
  simp [maybe_dispatch_ufunc_to_dunder_op, h]

/-- Counterexample to C10 as stated: a gate-passing call with a single input
whose type differs from self's does not fail with an indexing error — it
reads only `inputs[0]` and returns normally (here the NotImplemented
sentinel, since the method is absent). -/
theorem claim_C10_counterexample :
    ¬ ∀ (self : SelfObj) (uf : Ufunc) (inputs : List PyObj)
        (kwargs_out : Option PyVal),
        special.contains (aliases_get uf.name) = true → kwargs_out = none →
        inputs.length < 2 →
        ∃ msg : String,
          maybe_dispatch_ufunc_to_dunder_op self uf "__call__" inputs kwargs_out =
            Except.error (PyExn.indexError msg) := by
  intro h
  obtain ⟨msg, hmsg⟩ := h ⟨1, fun _ => none⟩ ⟨"add"⟩ [⟨0, 0⟩] none
    (by decide) rfl (by decide)
  rw [show maybe_dispatch_ufunc_to_dunder_op ⟨1, fun _ => none⟩ ⟨"add"⟩
      "__call__" [⟨0, 0⟩] none = Except.ok PyVal.notImplemented from rfl] at hmsg
  simp at hmsg

/-- C10 amended: when the gate passes, `inputs[0]` is always read — a
zero-input call fails with an indexing error — while `inputs[1]` is read
only when `inputs[0]` has self's concrete type, so a one-input call fails
with an indexing error in that case and otherwise returns the reflected
dispatch of `inputs[0]` with no error. -/
theorem claim_C10_input_reads (self : SelfObj) (uf : Ufunc)
    (hname : special.contains (aliases_get uf.name) = true) :
    (maybe_dispatch_ufunc_to_dunder_op self uf "__call__" [] none =
      Except.error (PyExn.indexError "tuple index out of range")) ∧
    (∀ i0 : PyObj, i0.typeTag = self.typeTag →
      maybe_dispatch_ufunc_to_dunder_op self uf "__call__" [i0] none =
        Except.error (PyExn.indexError "tuple index out of range")) ∧
    (∀ i0 : PyObj, i0.typeTag ≠ self.typeTag →
      maybe_dispatch_ufunc_to_dunder_op self uf "__call__" [i0] none =
        Except.ok (call_method self (flipped_get (aliases_get uf.name)) i0)) := by
  have hmem : aliases_get uf.name ∈ special := by simpa using hname
  refine ⟨?_, ?_, ?_⟩
  · simp [maybe_dispatch_ufunc_to_dunder_op, hmem]
  · intro i0 h
    simp [maybe_dispatch_ufunc_to_dunder_op, hmem, h]
  · intro i0 h
    simp [maybe_dispatch_ufunc_to_dunder_op, hmem, h]

/-- Witness for the amended C10: concrete zero-input, same-type one-input
and different-type one-input calls with the supported `"add"` ufunc. -/
theorem claim_C10_witness :
    maybe_dispatch_ufunc_to_dunder_op exSelf ⟨"add"⟩ "__call__" [] none =
      Except.error (PyExn.indexError "tuple index out of range") ∧
    maybe_dispatch_ufunc_to_dunder_op exSelf ⟨"add"⟩ "__call__" [⟨1, 3⟩] none =
      Except.error (PyExn.indexError "tuple index out of range") ∧
    maybe_dispatch_ufunc_to_dunder_op exSelf ⟨"add"⟩ "__call__" [⟨0, 3⟩] none =
      Except.ok PyVal.notImplemented := by
  refine ⟨(claim_C10_input_reads exSelf ⟨"add"⟩ (by decide)).1,
    (claim_C10_input_reads exSelf ⟨"add"⟩ (by decide)).2.1 ⟨1, 3⟩ rfl, ?_⟩
  rw [(claim_C10_input_reads exSelf ⟨"add"⟩ (by decide)).2.2 ⟨0, 3⟩ (by decide)]
  rfl

end PandasOpsDispatch
